import Mathlib

/-!
Shallow embedding of the core scanning engine of src/streamlit_app.py:
the probe dispatcher (the Python coroutine fetch, lines 40-73) and the
scan orchestrator (the Python coroutine run_search, lines 75-96).

Modelling conventions:
  - Python strings are Lean String; the Python substring test (the in
    operator) is embedded as strContains.
  - str.format with one positional argument is embedded as pyFormat over
    the automatic-numbering subset of the format mini-language: a doubled
    brace is an escaped literal brace, an empty replacement field consumes
    the next positional argument, a replacement field beyond the supplied
    arguments raises IndexError, and a stray single brace raises
    ValueError. Indexed and named replacement fields, which the site
    catalog never uses, are outside the modelled subset and mapped to an
    error as well.
  - one HTTP round trip is a NetResult: either .exc (any exception raised
    by session.get, including timeout, DNS, TLS and connection errors) or
    .resp with the final status, the body (an Except, .error when
    response.text() raises on a non-text body), the final post-redirect
    URL (str(response.url)), and two elapsed wall-clock readings in
    milliseconds: headerElapsedMs, the elapsed time at the moment the
    response object is available (where line 47 computes latency), and
    bodyElapsedMs, the elapsed time after the body has been fully read
    (line 49). Wall-clock time is supplied by the environment, so the two
    readings are data of the model.
  - raised Python exceptions are Except.error; the bare except/pass of
    lines 71-72 is the handler in fetch that maps an error of the try
    body (probeResponse) to the ok-None result of line 73.
  - asyncio.as_completed yields the submitted futures in a
    nondeterministic arrival order; run_search therefore takes the
    arrival list as a parameter, and the theorems hypothesise that it is
    a permutation of the task list.
-/

set_option autoImplicit false

/-- A site descriptor as consumed by fetch: the url template
(site_data["url"]) and the optional fields read with dict.get:
errorType and errorMsg (absent keys give Python None, hence Option). -/
structure SiteData where
  url : String
  errorType : Option String := none
  errorMsg : Option String := none
deriving DecidableEq

deriving instance DecidableEq for Except

/-- Outcome of the single HTTP round trip issued by fetch. -/
inductive NetResult where
  | exc : NetResult
  | resp (status : Nat) (body : Except Unit String) (finalUrl : String)
      (headerElapsedMs : Nat) (bodyElapsedMs : Nat) : NetResult
deriving DecidableEq

/-- The dictionary returned by fetch on a match (lines 64-70). The code
stores latency_ms as the string f-formatted value; the model keeps the
underlying elapsed milliseconds. -/
structure MatchRecord where
  site : String
  url : String
  status : String
  latency_ms : Nat
  category : String
deriving DecidableEq

/-- Left brace character, kept out of literals. -/
def lbrace : Char := Char.ofNat 123

/-- Right brace character, kept out of literals. -/
def rbrace : Char := Char.ofNat 125

/-- Substring test on char lists: does the needle occur contiguously in
the haystack? -/
def isInfixB (needle : List Char) : List Char → Bool
  | [] => needle.isEmpty
  | c :: rest => needle.isPrefixOf (c :: rest) || isInfixB needle rest

/-- Embedding of the Python expression needle in haystack for strings. -/
def strContains (haystack needle : String) : Bool :=
  isInfixB needle.toList haystack.toList

/-- Core of pyFormat over char lists; args are the remaining positional
arguments. Errors model the exceptions str.format raises. -/
def formatChars : List Char → List String → Except Unit (List Char)
  | [], _ => .ok []
  | [c], _ =>
      if c = lbrace || c = rbrace then .error ()
      else .ok [c]
  | c :: c2 :: rest, args =>
      if c = lbrace then
        if c2 = lbrace then (formatChars rest args).map (fun r => lbrace :: r)
        else if c2 = rbrace then
          match args with
          | [] => .error ()
          | a :: args2 => (formatChars rest args2).map (fun r => a.toList ++ r)
        else .error ()
      else if c = rbrace then
        if c2 = rbrace then (formatChars rest args).map (fun r => rbrace :: r)
        else .error ()
      else (formatChars (c2 :: rest) args).map (fun r => c :: r)

/-- Embedding of template.format(args...) (line 41), restricted to the
automatic-numbering subset described in the header comment. -/
def pyFormat (template : String) (args : List String) : Except Unit String :=
  (formatChars template.toList args).map (fun cs => String.mk cs)

/-- The detection-rule chain of lines 52-61: given the descriptor, the
constructed url, the final status, the decoded body text and the final
URL, decide the exists flag. The .error case models the TypeError raised
by None not in text when errorType is "message" but errorMsg is absent. -/
def ruleVerdict (data : SiteData) (url : String) (status : Nat)
    (text finalUrl : String) : Except Unit Bool :=
  if data.errorType = some "status_code" then .ok (status != 404)
  else if data.errorType = some "message" then
    match data.errorMsg with
    | none => .error ()
    | some m => .ok (!(strContains text m))
  else if data.errorType = some "response_url" then .ok (finalUrl == url)
  else .ok false

/-- Body of the try block of lines 44-70, after the url has been built:
issue the request, read status/text, apply the rule, and either return
the match record, return None (no match), or raise (.error). -/
def probeResponse (siteName : String) (data : SiteData) (url : String) :
    NetResult → Except Unit (Option MatchRecord)
  | .exc => .error ()
  | .resp status body finalUrl headerMs _bodyMs =>
      match body with
      | .error _ => .error ()
      | .ok text =>
          match ruleVerdict data url status text finalUrl with
          | .error e => .error e
          | .ok true => .ok (some
          { site := siteName, url := url, status := "Found",
            latency_ms := headerMs, category := "Social" })
          | .ok false => .ok none

/-- The dispatcher fetch (lines 40-73). The url is built on line 41,
outside the try block, so a format error escapes as .error; every
exception raised inside the try block is swallowed and yields .ok none,
exactly like a no-match. -/
def fetch (siteName : String) (data : SiteData) (username : String)
    (net : NetResult) : Except Unit (Option MatchRecord) :=
  match pyFormat data.url [username] with
  | .error e => .error e
  | .ok url =>
      match probeResponse siteName data url net with
      | .error _ => .ok none
      | .ok v => .ok v

/-- True exactly when a fetch result is a returned match record. -/
def isFound : Except Unit (Option MatchRecord) → Bool
  | .ok (some _) => true
  | _ => false

/-- The match record carried by a fetch result, if any. -/
def foundRec : Except Unit (Option MatchRecord) → Option MatchRecord
  | .ok (some r) => some r
  | _ => none

/-- The task-building loop of lines 79-82 from a given start index: one
fetch task per descriptor, in catalog order. The environment function
net assigns each task its network outcome, keyed by task index. -/
def tasksFrom (username : String) (net : Nat → NetResult) :
    Nat → List (String × SiteData) → List (Except Unit (Option MatchRecord))
  | _, [] => []
  | i, (siteName, data) :: rest =>
      fetch siteName data username (net i) :: tasksFrom username net (i + 1) rest

/-- The tasks created by run_search (lines 79-82): the submitted
descriptor list is truncated to its first 200 entries (line 81) and one
fetch task is appended per remaining descriptor. -/
def tasks (username : String) (site_data : List (String × SiteData))
    (net : Nat → NetResult) : List (Except Unit (Option MatchRecord)) :=
  tasksFrom username net 0 (site_data.take 200)

/-- What run_search accumulates: the retained match records, in
completion order, and the progress fractions handed to
progress_bar.progress, in emission order. -/
structure ScanTrace where
  results : List MatchRecord
  progress : List ℚ
deriving DecidableEq

/-- The as_completed loop of lines 89-94: await each arriving future (a
raised exception propagates and aborts the loop), keep the record when
one was returned, increment completed, and emit completed / total. -/
def runLoop (total : Nat) : List (Except Unit (Option MatchRecord)) →
    Nat → List MatchRecord → List ℚ → Except Unit ScanTrace
  | [], _, res, prog => .ok ⟨res, prog⟩
  | .error e :: _, _, _, _ => .error e
  | .ok o :: rest, completed, res, prog =>
      runLoop total rest (completed + 1)
        (match o with | some r => res ++ [r] | none => res)
        (prog ++ [((completed : ℚ) + 1) / (total : ℚ)])

/-- The orchestrator run_search (lines 75-96). The completions argument
is the arrival order produced by asyncio.as_completed; theorems relate
it to the task list by permutation. -/
def run_search (username : String) (site_data : List (String × SiteData))
    (net : Nat → NetResult)
    (completions : List (Except Unit (Option MatchRecord))) :
    Except Unit ScanTrace :=
  runLoop (tasks username site_data net).length completions 0 [] []

/-- The progress fractions emitted by n consecutive completions starting
from a given completed count, against a fixed total. -/
def progList (total completed n : Nat) : List ℚ :=
  (List.range n).map (fun (k : Nat) => ((completed : ℚ) + (k : ℚ) + 1) / (total : ℚ))

/-- A descriptor with a well-formed template and the status_code rule,
used for concrete evaluations. -/
def d0 : SiteData :=
  { url := "https://a.test/\x7b\x7d", errorType := some "status_code" }

/-- A descriptor whose template holds two replacement fields, so that
format raises IndexError with the single username argument. -/
def badData : SiteData :=
  { url := "https://b.test/\x7b\x7d/\x7b\x7d", errorType := some "status_code" }

/-- A submitted catalog of 201 descriptors, one more than the slice of
line 81 admits. -/
def sd201 : List (String × SiteData) := List.replicate 201 ("s", d0)

/-- A descriptor using the message rule with a configured marker. -/
def dMsg : SiteData :=
  { url := "https://a.test/\x7b\x7d", errorType := some "message",
    errorMsg := some "User not found" }

/-- A descriptor using the response_url rule. -/
def dRu : SiteData :=
  { url := "https://a.test/\x7b\x7d", errorType := some "response_url" }

/-- A descriptor whose errorType is none of the three recognised rule
names. -/
def dBogus : SiteData :=
  { url := "https://a.test/\x7b\x7d", errorType := some "bogus" }

/-- A one-descriptor submitted catalog. -/
def sdA : List (String × SiteData) := [("SiteA", d0)]

/-- A network environment in which every probe receives a plain 200
response without redirect. -/
def netA : Nat → NetResult :=
  fun _ => NetResult.resp 200 (.ok "welcome") "https://a.test/u" 3 5

/-- The match record the probe of sdA produces under netA. -/
def recA : MatchRecord :=
  { site := "SiteA", url := "https://a.test/u", status := "Found",
    latency_ms := 3, category := "Social" }

/-! Helper lemmas about the task list, the progress fractions and the
completion loop. -/

lemma tasksFrom_length (u : String) (net : Nat → NetResult) :
    ∀ (i : Nat) (l : List (String × SiteData)), (tasksFrom u net i l).length = l.length
  | _, [] => rfl
  | i, _ :: rest => by simp [tasksFrom, tasksFrom_length u net (i + 1) rest]

lemma tasksFrom_getElem? (u : String) (net : Nat → NetResult) :
    ∀ (l : List (String × SiteData)) (i k : Nat),
      (tasksFrom u net i l)[k]? = l[k]?.map (fun p => fetch p.1 p.2 u (net (i + k)))
  | [], i, k => by simp [tasksFrom]
  | p :: rest, i, 0 => by simp [tasksFrom]
  | p :: rest, i, k + 1 => by
      obtain ⟨siteName, data⟩ := p
      have ih := tasksFrom_getElem? u net rest (i + 1) k
      simp only [tasksFrom, List.getElem?_cons_succ, ih]
      have hik : i + 1 + k = i + (k + 1) := by omega
      rw [hik]

lemma tasks_length (u : String) (sd : List (String × SiteData)) (net : Nat → NetResult) :
    (tasks u sd net).length = min 200 sd.length := by
  unfold tasks
  rw [tasksFrom_length, List.length_take]

lemma tasks_getElem? (u : String) (sd : List (String × SiteData)) (net : Nat → NetResult)
    (k : Nat) (hk : k < 200) :
    (tasks u sd net)[k]? = sd[k]?.map (fun p => fetch p.1 p.2 u (net k)) := by
  unfold tasks
  rw [tasksFrom_getElem?, List.getElem?_take_of_lt hk]
  simp

lemma mem_tasks (u : String) (sd : List (String × SiteData)) (net : Nat → NetResult)
    (c : Except Unit (Option MatchRecord)) (hc : c ∈ tasks u sd net) :
    ∃ (k : Nat) (p : String × SiteData), sd[k]? = some p ∧ c = fetch p.1 p.2 u (net k) := by
  obtain ⟨k, hk⟩ := List.mem_iff_getElem?.mp hc
  have hlen : k < (tasks u sd net).length := (List.getElem?_eq_some_iff.mp hk).1
  have h200 : k < 200 := by
    have := tasks_length u sd net
    omega
  rw [tasks_getElem? u sd net k h200] at hk
  cases hp : sd[k]? with
  | none => rw [hp] at hk; simp at hk
  | some p =>
      rw [hp] at hk
      simp only [Option.map_some', Option.some.injEq] at hk
      exact ⟨k, p, hp, hk.symm⟩

lemma progList_length (total completed n : Nat) : (progList total completed n).length = n := by
  simp [progList]

lemma progList_succ (total completed n : Nat) :
    progList total completed (n + 1) =
      (((completed : ℚ) + 1) / (total : ℚ)) :: progList total (completed + 1) n := by
  unfold progList
  rw [List.range_succ_eq_map n]
  simp only [List.map_cons, List.map_map, Nat.cast_zero, add_zero]
  congr 1
  apply List.map_congr_left
  intro a _
  simp only [Function.comp]
  push_cast
  ring

lemma progList_pairwise (total completed n : Nat) :
    (progList total completed n).Pairwise (· ≤ ·) := by
  unfold progList
  rw [List.pairwise_map]
  refine (List.pairwise_lt_range n).imp ?_
  intro a b hab
  rcases Nat.eq_zero_or_pos total with h0 | hpos
  · subst h0
    simp
  · have ht : (0 : ℚ) < (total : ℚ) := by exact_mod_cast hpos
    rw [div_le_div_iff_of_pos_right ht]
    have hc : (a : ℚ) ≤ (b : ℚ) := by exact_mod_cast Nat.le_of_lt hab
    linarith

lemma progList_last (n : Nat) (hn : 0 < n) : (progList n 0 n).getLast? = some 1 := by
  obtain ⟨m, rfl⟩ : ∃ m, n = m + 1 := ⟨n - 1, by omega⟩
  unfold progList
  rw [List.range_succ m, List.map_append, List.map_cons, List.map_nil,
    List.getLast?_concat]
  congr 1
  push_cast
  rw [zero_add, div_self]
  positivity

lemma runLoop_results (total : Nat) :
    ∀ (cs : List (Except Unit (Option MatchRecord))) (completed : Nat)
      (res : List MatchRecord) (prog : List ℚ) (t : ScanTrace),
      runLoop total cs completed res prog = .ok t → t.results = res ++ cs.filterMap foundRec
  | [], completed, res, prog, t => by
      intro h
      simp only [runLoop, Except.ok.injEq] at h
      subst h
      simp
  | .error e :: cs, completed, res, prog, t => by
      intro h
      simp [runLoop] at h
  | .ok o :: cs, completed, res, prog, t => by
      intro h
      cases o with
      | none =>
          simp only [runLoop] at h
          have ih := runLoop_results total cs (completed + 1) res
            (prog ++ [((completed : ℚ) + 1) / (total : ℚ)]) t h
          simpa [foundRec] using ih
      | some r =>
          simp only [runLoop] at h
          have ih := runLoop_results total cs (completed + 1) (res ++ [r])
            (prog ++ [((completed : ℚ) + 1) / (total : ℚ)]) t h
          simpa [foundRec] using ih

lemma runLoop_full (total : Nat) :
    ∀ (cs : List (Except Unit (Option MatchRecord))) (completed : Nat)
      (res : List MatchRecord) (prog : List ℚ),
      (∀ c ∈ cs, c ≠ .error ()) →
      runLoop total cs completed res prog =
        .ok ⟨res ++ cs.filterMap foundRec, prog ++ progList total completed cs.length⟩
  | [], completed, res, prog, _ => by simp [runLoop, progList]
  | .error e :: cs, completed, res, prog, h => by
      cases e
      exact absurd rfl (h _ (List.mem_cons_self _ _))
  | .ok o :: cs, completed, res, prog, h => by
      cases o with
      | none =>
          have ih := runLoop_full total cs (completed + 1) res
            (prog ++ [((completed : ℚ) + 1) / (total : ℚ)])
            (fun c hc => h c (List.mem_cons_of_mem _ hc))
          simp only [runLoop, ih, List.length_cons, progList_succ]
          simp [foundRec]
      | some r =>
          have ih := runLoop_full total cs (completed + 1) (res ++ [r])
            (prog ++ [((completed : ℚ) + 1) / (total : ℚ)])
            (fun c hc => h c (List.mem_cons_of_mem _ hc))
          simp only [runLoop, ih, List.length_cons, progList_succ]
          simp [foundRec]

lemma mem_of_mem_filterMap_foundRec (cs : List (Except Unit (Option MatchRecord)))
    (r : MatchRecord) (hr : r ∈ cs.filterMap foundRec) : Except.ok (some r) ∈ cs := by
  obtain ⟨c, hc, hfr⟩ := List.mem_filterMap.mp hr
  cases c with
  | error e => simp [foundRec] at hfr
  | ok o =>
      cases o with
      | none => simp [foundRec] at hfr
      | some x =>
          simp only [foundRec, Option.some.injEq] at hfr
          subst hfr
          exact hc

lemma fetch_found_shape (siteName : String) (data : SiteData) (u : String)
    (st : Nat) (body : String) (furl : String) (hMs bMs : Nat) (r : MatchRecord)
    (h : fetch siteName data u (.resp st (.ok body) furl hMs bMs) = .ok (some r)) :
    ∃ url, pyFormat data.url [u] = .ok url ∧
      r = { site := siteName, url := url, status := "Found",
            latency_ms := hMs, category := "Social" } := by
  unfold fetch at h
  split at h
  · simp at h
  · next url hf =>
      refine ⟨url, hf, ?_⟩
      split at h
      · simp at h
      · next v hp =>
          simp only [Except.ok.injEq] at h
          subst h
          simp only [probeResponse] at hp
          split at hp
          · simp at hp
          · simp only [Except.ok.injEq, Option.some.injEq] at hp
            exact hp.symm
          · simp at hp

lemma fetch_found_record (siteName : String) (data : SiteData) (u : String)
    (net : NetResult) (r : MatchRecord) (h : fetch siteName data u net = .ok (some r)) :
    r.site = siteName ∧ r.status = "Found" := by
  cases net with
  | exc =>
      unfold fetch at h
      split at h
      · simp at h
      · next url hf =>
          simp only [probeResponse] at h
          simp at h
  | resp st body furl hMs bMs =>
      cases body with
      | error e =>
          unfold fetch at h
          split at h
          · simp at h
          · next url hf =>
              simp only [probeResponse] at h
              simp at h
      | ok text =>
          obtain ⟨url, _, hr⟩ := fetch_found_shape siteName data u st text furl hMs bMs r h
          subst hr
          exact ⟨rfl, rfl⟩

example : pyFormat d0.url ["alice"] = .ok "https://a.test/alice" := rfl
example : pyFormat badData.url ["alice"] = .error () := rfl
example : fetch "s" d0 "u" .exc = .ok none := rfl
example : strContains "User not found here" "not found" = true := rfl
example : strContains "all good" "not found" = false := rfl

/-! Claim theorems. -/

/-- Claim C1, counterexample: run_search creates the dispatch tasks from
the first 200 submitted descriptors only (the slice on line 81), so a
submission of 201 descriptors yields 200 dispatches, not 201. -/
theorem C1_counterexample :
    (tasks "u" sd201 (fun _ => NetResult.exc)).length = 200 ∧ sd201.length = 201 := by
  have hlen : sd201.length = 201 := by
    rw [sd201, List.length_replicate]
  constructor
  · rw [tasks_length, hlen]
    decide
  · exact hlen

/-- Claim C1, amended: the orchestrator dispatches exactly one probe per
descriptor among the first min 200 N submitted descriptors, in
submission order; the count of dispatches is min 200 N, so it equals N
exactly when at most 200 descriptors are submitted. -/
theorem C1_amended (u : String) (sd : List (String × SiteData)) (net : Nat → NetResult) :
    (tasks u sd net).length = min 200 sd.length ∧
    ∀ k : Nat, k < 200 →
      (tasks u sd net)[k]? = sd[k]?.map (fun p => fetch p.1 p.2 u (net k)) :=
  ⟨tasks_length u sd net, fun k hk => tasks_getElem? u sd net k hk⟩

/-- Witness for C1_amended at a one-descriptor catalog. -/
theorem C1_amended_witness :
    (tasks "u" sdA (fun _ => NetResult.exc)).length = min 200 sdA.length ∧
    (tasks "u" sdA (fun _ => NetResult.exc))[0]? =
      some (fetch "SiteA" d0 "u" NetResult.exc) := by
  refine ⟨(C1_amended "u" sdA (fun _ => NetResult.exc)).1, ?_⟩
  have h := (C1_amended "u" sdA (fun _ => NetResult.exc)).2 0 (by decide)
  simpa [sdA] using h

/-- Claim C2: for a status_code descriptor, once a response is received
and its body consumed, the verdict is Found exactly when the final HTTP
status is not 404; any other status, 500 included, matches. -/
theorem C2_statusCodeRule (siteName : String) (data : SiteData)
    (u url text furl : String) (st hMs bMs : Nat)
    (hfmt : pyFormat data.url [u] = .ok url)
    (ht : data.errorType = some "status_code") :
    isFound (fetch siteName data u (.resp st (.ok text) furl hMs bMs)) = true ↔
      st ≠ 404 := by
  by_cases h404 : st = 404
  · subst h404
    simp [fetch, hfmt, probeResponse, ruleVerdict, ht, isFound]
  · have hb : (st != 404) = true := by
      simp [bne_iff_ne]
      exact h404
    simp [fetch, hfmt, probeResponse, ruleVerdict, ht, isFound, hb, h404]

/-- Witness for C2_statusCodeRule: a 500 response counts as Found. -/
theorem C2_witness :
    isFound (fetch "s" d0 "u" (.resp 500 (.ok "") "x" 1 2)) = true :=
  (C2_statusCodeRule "s" d0 "u" "https://a.test/u" "" "x" 500 1 2 rfl rfl).mpr
    (by decide)

/-- Claim C3: for a message descriptor with configured marker m, once a
response is received and its body consumed, the verdict is Found exactly
when m does not occur as a substring of the body text. -/
theorem C3_messageRule (siteName : String) (data : SiteData)
    (u url text furl m : String) (st hMs bMs : Nat)
    (hfmt : pyFormat data.url [u] = .ok url)
    (ht : data.errorType = some "message")
    (hm : data.errorMsg = some m) :
    isFound (fetch siteName data u (.resp st (.ok text) furl hMs bMs)) = true ↔
      strContains text m = false := by
  cases hc : strContains text m <;>
    simp [fetch, hfmt, probeResponse, ruleVerdict, ht, hm, hc, isFound]

/-- Witness for C3_messageRule: marker absent yields Found. -/
theorem C3_witness :
    isFound (fetch "s" dMsg "u" (.resp 200 (.ok "welcome") "x" 1 2)) = true :=
  (C3_messageRule "s" dMsg "u" "https://a.test/u" "welcome" "x" "User not found"
    200 1 2 rfl rfl rfl).mpr (by decide)

/-- Claim C4: for a response_url descriptor, once a response is received
and its body consumed, the verdict is Found exactly when the final
post-redirect URL string is character-for-character identical to the
constructed URL. -/
theorem C4_responseUrlRule (siteName : String) (data : SiteData)
    (u url text furl : String) (st hMs bMs : Nat)
    (hfmt : pyFormat data.url [u] = .ok url)
    (ht : data.errorType = some "response_url") :
    isFound (fetch siteName data u (.resp st (.ok text) furl hMs bMs)) = true ↔
      furl = url := by
  by_cases hc : furl = url
  · subst hc
    simp [fetch, hfmt, probeResponse, ruleVerdict, ht, isFound]
  · have hb : (furl == url) = false := by
      simp [beq_eq_false_iff_ne]
      exact hc
    simp [fetch, hfmt, probeResponse, ruleVerdict, ht, isFound, hb, hc]

/-- Witness for C4_responseUrlRule: no redirect yields Found. -/
theorem C4_witness :
    isFound (fetch "s" dRu "u"
      (.resp 200 (.ok "") "https://a.test/u" 1 2)) = true :=
  (C4_responseUrlRule "s" dRu "u" "https://a.test/u" "" "https://a.test/u"
    200 1 2 rfl rfl).mpr rfl

/-- Claim C5, counterexample: a descriptor whose URL template holds two
replacement fields makes format raise on line 41, outside the try block,
so fetch raises instead of yielding a contained failure, and the raised
exception aborts the orchestrator loop. -/
theorem C5_counterexample :
    fetch "s" badData "u" (.resp 200 (.ok "") "x" 1 2) = .error () ∧
    run_search "u" [("s", badData)] (fun _ => .resp 200 (.ok "") "x" 1 2)
      [fetch "s" badData "u" (.resp 200 (.ok "") "x" 1 2)] = .error () :=
  ⟨rfl, rfl⟩

/-- Claim C5, amended: every exception raised during the HTTP call or
response processing is contained inside fetch (the probe yields no match
record and no exception escapes), but a malformed URL template raises
during URL construction, before the try block, and that exception
propagates to the orchestrator and caller. -/
theorem C5_amended (siteName : String) (data : SiteData) (u : String) (net : NetResult) :
    (∀ url, pyFormat data.url [u] = .ok url →
      ∃ v, fetch siteName data u net = .ok v) ∧
    (pyFormat data.url [u] = .error () → fetch siteName data u net = .error ()) ∧
    (∀ url, pyFormat data.url [u] = .ok url →
      fetch siteName data u .exc = .ok none) ∧
    (∀ url st furl hMs bMs, pyFormat data.url [u] = .ok url →
      fetch siteName data u (.resp st (.error ()) furl hMs bMs) = .ok none) := by
  refine ⟨?_, ?_, ?_, ?_⟩
  · intro url hf
    simp only [fetch, hf]
    cases probeResponse siteName data url net with
    | error e => exact ⟨none, rfl⟩
    | ok v => exact ⟨v, rfl⟩
  · intro hf
    simp only [fetch, hf]
  · intro url hf
    simp [fetch, hf, probeResponse]
  · intro url st furl hMs bMs hf
    simp [fetch, hf, probeResponse]

/-- Witness for C5_amended: a contained network failure and a
propagating template failure. -/
theorem C5_amended_witness :
    fetch "s" d0 "u" NetResult.exc = .ok none ∧
    fetch "s" badData "u" NetResult.exc = .error () := by
  constructor
  · exact (C5_amended "s" d0 "u" NetResult.exc).2.2.1 "https://a.test/u" rfl
  · exact (C5_amended "s" badData "u" NetResult.exc).2.1 rfl

/-- Claim C6, counterexample: a probe whose response headers arrive at
100 ms but whose body is only fully consumed at 500 ms records
latency_ms = 100, the reading taken on line 47 before the body is read,
not the full-consumption interval. -/
theorem C6_counterexample :
    fetch "s" d0 "u" (.resp 200 (.ok "") "x" 100 500) =
      .ok (some { site := "s", url := "https://a.test/u", status := "Found",
                  latency_ms := 100, category := "Social" }) ∧
    (100 : Nat) ≠ 500 :=
  ⟨rfl, by decide⟩

/-- Claim C6, amended: the latencyMs value attached to an outcome is the
elapsed wall-clock milliseconds from request start to the moment the
response object is available (line 47), excluding the reading of the
response body. -/
theorem C6_amended (siteName : String) (data : SiteData) (u : String)
    (st : Nat) (body furl : String) (hMs bMs : Nat) (r : MatchRecord)
    (h : fetch siteName data u (.resp st (.ok body) furl hMs bMs) = .ok (some r)) :
    r.latency_ms = hMs := by
  obtain ⟨url, _, hr⟩ := fetch_found_shape siteName data u st body furl hMs bMs r h
  rw [hr]

/-- Witness for C6_amended at a concrete probe. -/
theorem C6_amended_witness :
    ({ site := "s", url := "https://a.test/u", status := "Found",
       latency_ms := 7, category := "Social" } : MatchRecord).latency_ms = 7 :=
  C6_amended "s" d0 "u" 200 "" "x" 7 9
    { site := "s", url := "https://a.test/u", status := "Found",
      latency_ms := 7, category := "Social" } rfl

/-- Claim C7, counterexample: a scan of 201 submitted descriptors emits
only 200 progress updates (one per dispatched task), so the final value
1.0 is reached after 200 completions, not after 201. -/
theorem C7_counterexample :
    ∃ t, run_search "u" sd201 (fun _ => NetResult.exc)
        (tasks "u" sd201 (fun _ => NetResult.exc)) = .ok t ∧
      t.progress.length = 200 ∧ sd201.length = 201 := by
  have hok : ∀ c ∈ tasks "u" sd201 (fun _ => NetResult.exc), c ≠ Except.error () := by
    intro c hc
    obtain ⟨k, p, hp, rfl⟩ := mem_tasks _ _ _ c hc
    have hpm : p ∈ sd201 := List.getElem?_mem hp
    have hpe : p = ("s", d0) := List.eq_of_mem_replicate hpm
    subst hpe
    have hval : fetch ("s", d0).1 ("s", d0).2 "u" ((fun _ => NetResult.exc) k) =
        Except.ok none := rfl
    rw [hval]
    exact fun hbad => Except.noConfusion hbad
  refine ⟨_, runLoop_full _ _ 0 [] [] hok, ?_, ?_⟩
  · simp only [List.nil_append, progList_length, tasks_length, sd201,
      List.length_replicate]
    decide
  · rw [sd201, List.length_replicate]

/-- Claim C7, amended: letting T be the number of dispatched tasks
(min 200 N), when every arriving future returns without raising, exactly
one progress value is emitted per completion regardless of verdict, the
k-th emitted value is (k + 1) / T, the sequence is monotonically
non-decreasing, and when T is positive the final emitted value is 1. -/
theorem C7_amended (u : String) (sd : List (String × SiteData)) (net : Nat → NetResult)
    (completions : List (Except Unit (Option MatchRecord)))
    (hperm : completions.Perm (tasks u sd net))
    (hok : ∀ c ∈ completions, c ≠ Except.error ()) :
    ∃ t, run_search u sd net completions = .ok t ∧
      t.progress = progList (tasks u sd net).length 0 completions.length ∧
      t.progress.length = completions.length ∧
      t.progress.Pairwise (· ≤ ·) ∧
      (0 < completions.length → t.progress.getLast? = some 1) := by
  refine ⟨_, runLoop_full _ _ 0 [] [] hok, ?_, ?_, ?_, ?_⟩
  · simp
  · simp [progList_length]
  · simpa using progList_pairwise (tasks u sd net).length 0 completions.length
  · intro hpos
    have hlen : completions.length = (tasks u sd net).length := hperm.length_eq
    simp only [List.nil_append]
    rw [hlen]
    exact progList_last _ (by omega)

/-- Witness for C7_amended at a one-descriptor catalog. -/
theorem C7_amended_witness :
    ∃ t, run_search "u" sdA (fun _ => NetResult.exc)
        (tasks "u" sdA (fun _ => NetResult.exc)) = .ok t ∧
      t.progress = progList (tasks "u" sdA (fun _ => NetResult.exc)).length 0
        (tasks "u" sdA (fun _ => NetResult.exc)).length ∧
      t.progress.length = (tasks "u" sdA (fun _ => NetResult.exc)).length ∧
      t.progress.Pairwise (· ≤ ·) ∧
      (0 < (tasks "u" sdA (fun _ => NetResult.exc)).length →
        t.progress.getLast? = some 1) :=
  C7_amended "u" sdA (fun _ => NetResult.exc)
    (tasks "u" sdA (fun _ => NetResult.exc)) (List.Perm.refl _) (by decide)

/-- Claim C8: the returned result collection holds exactly the Found
outcomes, in completion order (NotFound and failed probes are
discarded), every retained record carries the Found status, and every
retained record is the outcome of the probe of one of the submitted
descriptors. -/
theorem C8_foundOnly (u : String) (sd : List (String × SiteData)) (net : Nat → NetResult)
    (completions : List (Except Unit (Option MatchRecord))) (t : ScanTrace)
    (hperm : completions.Perm (tasks u sd net))
    (hrun : run_search u sd net completions = .ok t) :
    t.results = completions.filterMap foundRec ∧
    (∀ r ∈ t.results, r.status = "Found") ∧
    (∀ r ∈ t.results, ∃ (k : Nat) (p : String × SiteData),
      sd[k]? = some p ∧ fetch p.1 p.2 u (net k) = .ok (some r) ∧ r.site = p.1) := by
  have hres : t.results = completions.filterMap foundRec := by
    simpa using runLoop_results (tasks u sd net).length completions 0 [] [] t hrun
  refine ⟨hres, ?_, ?_⟩
  · intro r hr
    rw [hres] at hr
    have hmem : Except.ok (some r) ∈ completions :=
      mem_of_mem_filterMap_foundRec completions r hr
    have hmem2 : Except.ok (some r) ∈ tasks u sd net := hperm.subset hmem
    obtain ⟨k, p, hp, heq⟩ := mem_tasks u sd net _ hmem2
    exact (fetch_found_record p.1 p.2 u (net k) r heq.symm).2
  · intro r hr
    rw [hres] at hr
    have hmem : Except.ok (some r) ∈ completions :=
      mem_of_mem_filterMap_foundRec completions r hr
    have hmem2 : Except.ok (some r) ∈ tasks u sd net := hperm.subset hmem
    obtain ⟨k, p, hp, heq⟩ := mem_tasks u sd net _ hmem2
    exact ⟨k, p, hp, heq.symm, (fetch_found_record p.1 p.2 u (net k) r heq.symm).1⟩

/-- Witness for C8_foundOnly at a one-descriptor catalog whose probe
matches. -/
theorem C8_witness :
    (ScanTrace.mk [recA]
        [(((0 : Nat) : ℚ) + 1) / (((tasks "u" sdA netA).length : Nat) : ℚ)]).results =
      (tasks "u" sdA netA).filterMap foundRec ∧
    (∀ r ∈ (ScanTrace.mk [recA]
        [(((0 : Nat) : ℚ) + 1) / (((tasks "u" sdA netA).length : Nat) : ℚ)]).results,
      r.status = "Found") ∧
    (∀ r ∈ (ScanTrace.mk [recA]
        [(((0 : Nat) : ℚ) + 1) / (((tasks "u" sdA netA).length : Nat) : ℚ)]).results,
      ∃ (k : Nat) (p : String × SiteData),
        sdA[k]? = some p ∧ fetch p.1 p.2 "u" (netA k) = .ok (some r) ∧
        r.site = p.1) :=
  C8_foundOnly "u" sdA netA (tasks "u" sdA netA)
    (ScanTrace.mk [recA]
      [(((0 : Nat) : ℚ) + 1) / (((tasks "u" sdA netA).length : Nat) : ℚ)])
    (List.Perm.refl _) rfl

/-- Claim C10: when the errorType field is missing or not one of the
three recognised rule names, a probe that receives a readable response
falls through the rule chain without raising: the try body returns None
(the NotFound path, not the ProbeFailed path) and fetch yields no Found
record, indistinguishable from a genuine non-match. -/
theorem C10_unrecognizedRule (siteName : String) (data : SiteData)
    (u url text furl : String) (st hMs bMs : Nat)
    (hfmt : pyFormat data.url [u] = .ok url)
    (h1 : data.errorType ≠ some "status_code")
    (h2 : data.errorType ≠ some "message")
    (h3 : data.errorType ≠ some "response_url") :
    probeResponse siteName data url (.resp st (.ok text) furl hMs bMs) = .ok none ∧
    fetch siteName data u (.resp st (.ok text) furl hMs bMs) = .ok none := by
  have hp : probeResponse siteName data url (.resp st (.ok text) furl hMs bMs) =
      .ok none := by
    simp [probeResponse, ruleVerdict, h1, h2, h3]
  exact ⟨hp, by simp [fetch, hfmt, hp]⟩

/-- Witness for C10_unrecognizedRule at a bogus rule name. -/
theorem C10_witness :
    probeResponse "s" dBogus "https://a.test/u"
      (.resp 200 (.ok "hi") "x" 1 2) = .ok none ∧
    fetch "s" dBogus "u" (.resp 200 (.ok "hi") "x" 1 2) = .ok none :=
  C10_unrecognizedRule "s" dBogus "u" "https://a.test/u" "hi" "x" 200 1 2
    rfl (by decide) (by decide) (by decide)
